import Mathlib

/-!
Verification of the settings-resolution, connection-handler and shell-command
excerpt of the `zieft/Django4_CN_Comment` repository.

The Python code is shallowly embedded: modules and object attribute
dictionaries become association lists from attribute names to `PyVal` values,
exceptions become an `Except PyExc` result, and the thread-local connection
store of one thread becomes an explicit association list threaded through the
operations.
-/

/-- A Python value, as far as the embedded code inspects values: `None`,
booleans, integers, strings, lists and tuples.  `isinstance(v, (list, tuple))`
and truthiness tests are the only type inspections the code performs. -/
inductive PyVal where
  | none : PyVal
  | bool : Bool → PyVal
  | int : Int → PyVal
  | str : String → PyVal
  | list : List PyVal → PyVal
  | tuple : List PyVal → PyVal

/-- Python truthiness (`bool(v)`) for the embedded value type. -/
def pyTruthy : PyVal → Bool
  | PyVal.none => false
  | PyVal.bool b => b
  | PyVal.int n => n != 0
  | PyVal.str s => s != ""
  | PyVal.list l => !l.isEmpty
  | PyVal.tuple l => !l.isEmpty

/-- Python `str.isupper()`: at least one cased character and no lower-case
character (for the ASCII identifiers used as setting names, the cased
characters are the letters). -/
def pyIsupper (s : String) : Bool :=
  s.data.any (fun c => c.isUpper || c.isLower) && s.data.all (fun c => !c.isLower)

/-- `isinstance(v, (list, tuple))`. -/
def isListOrTuple : PyVal → Bool
  | PyVal.list _ => true
  | PyVal.tuple _ => true
  | _ => false

/-- The Python exceptions raised by the embedded code. -/
inductive PyExc where
  | improperlyConfigured : String → PyExc
  | attributeError : PyExc
  | valueError : String → PyExc
  | runtimeError : String → PyExc
  | typeError : String → PyExc
  | connectionDoesNotExist : String → PyExc
  | commandError : String → PyExc

/-- A single-quote character, used to reproduce quoted names in the
exception messages of the source. -/
def sglQuote : String := String.mk [Char.ofNat 39]

/-- An attribute dictionary (or the upper-case attributes of a module, in the
order `dir()` lists them): an association list from names to values. -/
abbrev AttrMap := List (String × PyVal)

/-- Dictionary lookup: the value of the first binding of `n`, if any. -/
def lookupA {α : Type} : List (String × α) → String → Option α
  | [], _ => Option.none
  | (k, v) :: rest, n => if k = n then some v else lookupA rest n

/-- Drop every binding of key `n`. -/
def removeKey {α : Type} : List (String × α) → String → List (String × α)
  | [], _ => []
  | (k, v) :: rest, n => if k = n then removeKey rest n else (k, v) :: removeKey rest n

/-- `obj.__dict__[n] = v` / `setattr`: replace any binding of `n` by a binding
to `v`. -/
def setA {α : Type} (m : List (String × α)) (n : String) (v : α) : List (String × α) :=
  removeKey m n ++ [(n, v)]

theorem lookupA_eq_none_of_not_mem {α : Type} {m : List (String × α)} {n : String}
    (h : n ∉ m.map Prod.fst) : lookupA m n = Option.none := by
  induction m with
  | nil => rfl
  | cons p rest ih =>
    simp only [List.map_cons, List.mem_cons, not_or] at h
    obtain ⟨p1, p2⟩ := p
    rw [lookupA, if_neg (fun hk : p1 = n => h.1 hk.symm)]
    exact ih h.2

theorem lookupA_isSome_iff_mem {α : Type} {m : List (String × α)} {n : String} :
    (lookupA m n).isSome = true ↔ n ∈ m.map Prod.fst := by
  induction m with
  | nil => simp [lookupA]
  | cons p rest ih =>
    obtain ⟨p1, p2⟩ := p
    by_cases hk : p1 = n
    · simp [lookupA, hk]
    · rw [lookupA]
      simp only [if_neg hk, List.map_cons, List.mem_cons]
      rw [ih]
      constructor
      · exact Or.inr
      · rintro (h | h)
        · exact absurd h.symm hk
        · exact h

theorem lookupA_append {α : Type} (a b : List (String × α)) (n : String) :
    lookupA (a ++ b) n =
      match lookupA a n with
      | some v => some v
      | Option.none => lookupA b n := by
  induction a with
  | nil => rfl
  | cons p rest ih =>
    obtain ⟨p1, p2⟩ := p
    by_cases hk : p1 = n
    · simp [lookupA, hk]
    · simp [lookupA, hk, ih]

theorem lookupA_removeKey_self {α : Type} (m : List (String × α)) (n : String) :
    lookupA (removeKey m n) n = Option.none := by
  induction m with
  | nil => rfl
  | cons p rest ih =>
    obtain ⟨p1, p2⟩ := p
    by_cases hk : p1 = n
    · simpa [removeKey, hk] using ih
    · simpa [removeKey, lookupA, hk] using ih

theorem lookupA_removeKey_ne {α : Type} (m : List (String × α)) {n n' : String}
    (h : n' ≠ n) : lookupA (removeKey m n) n' = lookupA m n' := by
  induction m with
  | nil => rfl
  | cons p rest ih =>
    obtain ⟨p1, p2⟩ := p
    by_cases hk : p1 = n
    · rw [removeKey, if_pos hk, ih, lookupA,
        if_neg (fun he : p1 = n' => h (hk ▸ he).symm)]
    · by_cases hk' : p1 = n'
      · rw [removeKey, if_neg hk, lookupA, if_pos hk', lookupA, if_pos hk']
      · rw [removeKey, if_neg hk, lookupA, if_neg hk', lookupA, if_neg hk', ih]

theorem lookupA_setA_self {α : Type} (m : List (String × α)) (n : String) (v : α) :
    lookupA (setA m n v) n = some v := by
  rw [setA, lookupA_append, lookupA_removeKey_self]
  simp [lookupA]

theorem lookupA_setA_ne {α : Type} (m : List (String × α)) {n n' : String} (v : α)
    (h : n' ≠ n) : lookupA (setA m n v) n' = lookupA m n' := by
  rw [setA, lookupA_append, lookupA_removeKey_ne m h]
  cases hm : lookupA m n' with
  | some w => rfl
  | none => simp [lookupA, Ne.symm h]

/-! ## `django.conf.Settings` (`src/django/conf/__init__.py`, `Settings.__init__`) -/

/-- The four settings that `Settings.__init__` requires to be a list or a
tuple (`tuple_settings` in the source). -/
def tuple_settings : List String :=
  ["ALLOWED_HOSTS", "INSTALLED_APPS", "TEMPLATE_DIRS", "LOCALE_PATHS"]

/-- The first loop of `Settings.__init__`: copy every upper-case attribute of
the `global_settings` module onto the fresh object. -/
def copyGlobalSettings (g : AttrMap) : AttrMap :=
  g.foldl (fun acc p => if pyIsupper p.1 then setA acc p.1 p.2 else acc) []

/-- The second loop of `Settings.__init__`: for every upper-case attribute of
the user module, check the list-or-tuple constraint, copy the attribute onto
the object and record the name in `_explicit_settings`. -/
def applyUserSettings : AttrMap → List String → AttrMap → Except PyExc (AttrMap × List String)
  | a, e, [] => Except.ok (a, e)
  | a, e, (n, v) :: rest =>
    if pyIsupper n then
      if n ∈ tuple_settings ∧ isListOrTuple v = false then
        Except.error (PyExc.improperlyConfigured
          ("The " ++ n ++ " setting must be a list or a tuple."))
      else
        applyUserSettings (setA a n v) (e ++ [n]) rest
    else
      applyUserSettings a e rest

/-- The parts of the process environment that the time-zone validation at the
end of `Settings.__init__` consults: whether `time` has `tzset`, whether
`/usr/share/zoneinfo` exists, and which zoneinfo files exist. -/
structure SysEnv where
  hasTzset : Bool
  zoneinfoRootExists : Bool
  zoneFileExists : String → Bool

/-- The time-zone validation at the end of `Settings.__init__`: when
`time.tzset` exists and `self.TIME_ZONE` is truthy, a zoneinfo root that
exists without the corresponding zone file is a `ValueError`.  Accessing a
missing `TIME_ZONE` attribute (or calling `.split` on a non-string) is an
`AttributeError`. -/
def tzCheck (env : SysEnv) (a : AttrMap) : Except PyExc Unit :=
  if env.hasTzset then
    match lookupA a "TIME_ZONE" with
    | Option.none => Except.error PyExc.attributeError
    | some tz =>
      if pyTruthy tz then
        match tz with
        | PyVal.str z =>
          if env.zoneinfoRootExists && !(env.zoneFileExists z) then
            Except.error (PyExc.valueError ("Incorrect timezone setting: " ++ z))
          else Except.ok ()
        | _ => Except.error PyExc.attributeError
      else Except.ok ()
  else Except.ok ()

/-- The state of a constructed `Settings` object: its attribute dictionary and
its `_explicit_settings` set (kept as the list of recorded names). -/
structure SettingsObj where
  attrs : AttrMap
  explicit : List String

/-- `Settings.__init__(settings_module)`: copy the upper-case defaults from
`global_settings` (`g`), store `SETTINGS_MODULE`, overlay the upper-case
attributes of the imported user module (`mod`) with the list-or-tuple check,
then access `USE_TZ` (for the deprecation warning, which has no state effect)
and validate the time zone.  The deprecation warnings themselves do not
change the object. -/
def Settings.init (g : AttrMap) (settings_module : String) (mod : AttrMap)
    (env : SysEnv) : Except PyExc SettingsObj :=
  let a1 := setA (copyGlobalSettings g) "SETTINGS_MODULE" (PyVal.str settings_module)
  match applyUserSettings a1 [] mod with
  | Except.error e => Except.error e
  | Except.ok (a2, expl) =>
    match lookupA a2 "USE_TZ" with
    | Option.none => Except.error PyExc.attributeError
    | some _ =>
      match tzCheck env a2 with
      | Except.error e => Except.error e
      | Except.ok _ => Except.ok { attrs := a2, explicit := expl }

/-- `Settings.is_overridden(setting)`: membership in `_explicit_settings`. -/
def SettingsObj.is_overridden (s : SettingsObj) (setting : String) : Bool :=
  decide (setting ∈ s.explicit)

theorem copyGlobalSettings_lookup_aux (g : AttrMap) (acc : AttrMap) (n : String)
    (hg : (g.map Prod.fst).Nodup) :
    lookupA (g.foldl (fun acc p => if pyIsupper p.1 then setA acc p.1 p.2 else acc) acc) n =
      match lookupA g n with
      | some v => if pyIsupper n then some v else lookupA acc n
      | Option.none => lookupA acc n := by
  induction g generalizing acc with
  | nil => rfl
  | cons p rest ih =>
    obtain ⟨k, w⟩ := p
    simp only [List.map_cons, List.nodup_cons] at hg
    rw [List.foldl_cons, ih _ hg.2]
    by_cases hk : k = n
    · subst hk
      have hrest : lookupA rest k = Option.none :=
        lookupA_eq_none_of_not_mem hg.1
      rw [hrest, lookupA, if_pos rfl]
      by_cases hu : pyIsupper k = true
      · simp only [hu, if_pos rfl, if_true]
        exact lookupA_setA_self acc k w
      · have hu' : pyIsupper k = false := by
          cases h : pyIsupper k
          · rfl
          · exact absurd h hu
        simp [hu']
    · rw [lookupA, if_neg hk]
      by_cases hu : pyIsupper k = true
      · simp only [hu, if_true]
        rw [lookupA_setA_ne acc w (fun he : n = k => hk he.symm)]
      · have hu' : pyIsupper k = false := by
          cases h : pyIsupper k
          · rfl
          · exact absurd h hu
        simp [hu']

theorem copyGlobalSettings_lookup (g : AttrMap) (n : String)
    (hg : (g.map Prod.fst).Nodup) :
    lookupA (copyGlobalSettings g) n =
      if pyIsupper n then lookupA g n else Option.none := by
  rw [copyGlobalSettings, copyGlobalSettings_lookup_aux g [] n hg]
  cases hgn : lookupA g n <;> cases h : pyIsupper n <;> simp [lookupA]

theorem applyUserSettings_ok_spec :
    ∀ (mod a : AttrMap) (e : List String) (a2 : AttrMap) (e2 : List String),
      (mod.map Prod.fst).Nodup →
      applyUserSettings a e mod = Except.ok (a2, e2) →
      (∀ n, lookupA a2 n =
          match lookupA mod n with
          | some v => if pyIsupper n then some v else lookupA a n
          | Option.none => lookupA a n)
      ∧ e2 = e ++ (mod.filter (fun p => pyIsupper p.1)).map Prod.fst := by
  intro mod
  induction mod with
  | nil =>
    intro a e a2 e2 _ h
    rw [applyUserSettings] at h
    injection h with h
    injection h with h1 h2
    subst h1; subst h2
    exact ⟨fun n => rfl, by simp⟩
  | cons p rest ih =>
    obtain ⟨n0, v0⟩ := p
    intro a e a2 e2 hnd h
    simp only [List.map_cons, List.nodup_cons] at hnd
    rw [applyUserSettings] at h
    by_cases hu : pyIsupper n0 = true
    · rw [if_pos hu] at h
      by_cases hbad : n0 ∈ tuple_settings ∧ isListOrTuple v0 = false
      · rw [if_pos hbad] at h; cases h
      · rw [if_neg hbad] at h
        obtain ⟨hlook, hexp⟩ := ih (setA a n0 v0) (e ++ [n0]) a2 e2 hnd.2 h
        refine ⟨fun n => ?_, ?_⟩
        · by_cases hn : n0 = n
          · subst hn
            have hr : lookupA rest n0 = Option.none :=
              lookupA_eq_none_of_not_mem hnd.1
            rw [hlook n0, hr]
            simp [lookupA, hu, lookupA_setA_self]
          · rw [hlook n]
            have hne := lookupA_setA_ne a v0 (fun he : n = n0 => hn he.symm)
            simp only [hne]
            simp [lookupA, hn]
        · rw [hexp, List.filter_cons]
          simp [hu]
    · rw [if_neg hu] at h
      obtain ⟨hlook, hexp⟩ := ih a e a2 e2 hnd.2 h
      have hu' : pyIsupper n0 = false := by
        cases hx : pyIsupper n0
        · rfl
        · exact absurd hx hu
      refine ⟨fun n => ?_, ?_⟩
      · by_cases hn : n0 = n
        · subst hn
          have hr : lookupA rest n0 = Option.none :=
            lookupA_eq_none_of_not_mem hnd.1
          rw [hlook n0, hr]
          simp [lookupA, hu']
        · rw [hlook n]
          simp [lookupA, hn]
      · rw [hexp, List.filter_cons]
        simp [hu']

/-- The first entry of the user module that is upper-case, one of the four
`tuple_settings`, and neither a list nor a tuple, if any: this is the entry
at which the `dir(mod)` loop of `Settings.__init__` raises. -/
def firstTupleOffender (mod : AttrMap) : Option String :=
  (mod.find? (fun p =>
    pyIsupper p.1 && decide (p.1 ∈ tuple_settings) && !isListOrTuple p.2)).map Prod.fst

theorem bool_eq_false {b : Bool} (h : ¬b = true) : b = false := by
  cases hx : b
  · rfl
  · exact absurd hx h

theorem firstTupleOffender_cons_pos (n0 : String) (v0 : PyVal) (rest : AttrMap)
    (hp : (pyIsupper n0 && decide (n0 ∈ tuple_settings) && !isListOrTuple v0) = true) :
    firstTupleOffender ((n0, v0) :: rest) = some n0 := by
  simp [firstTupleOffender, List.find?, hp]

theorem firstTupleOffender_cons_neg (n0 : String) (v0 : PyVal) (rest : AttrMap)
    (hp : (pyIsupper n0 && decide (n0 ∈ tuple_settings) && !isListOrTuple v0) = false) :
    firstTupleOffender ((n0, v0) :: rest) = firstTupleOffender rest := by
  simp [firstTupleOffender, List.find?, hp]

theorem applyUserSettings_offender :
    ∀ (mod a : AttrMap) (e : List String) (u : String),
      firstTupleOffender mod = some u →
      applyUserSettings a e mod = Except.error (PyExc.improperlyConfigured
        ("The " ++ u ++ " setting must be a list or a tuple.")) := by
  intro mod
  induction mod with
  | nil => intro a e u h; cases h
  | cons p rest ih =>
    obtain ⟨n0, v0⟩ := p
    intro a e u h
    by_cases hp : (pyIsupper n0 && decide (n0 ∈ tuple_settings) && !isListOrTuple v0) = true
    · rw [firstTupleOffender_cons_pos n0 v0 rest hp] at h
      injection h with h
      subst h
      have h1 : pyIsupper n0 = true := by
        cases hx : pyIsupper n0
        · rw [hx] at hp; simp at hp
        · rfl
      have h2 : n0 ∈ tuple_settings := by
        by_cases hx : n0 ∈ tuple_settings
        · exact hx
        · exfalso; simp [hx] at hp
      have h3 : isListOrTuple v0 = false := by
        cases hx : isListOrTuple v0
        · rfl
        · rw [hx] at hp; simp at hp
      rw [applyUserSettings, if_pos h1, if_pos ⟨h2, h3⟩]
    · rw [firstTupleOffender_cons_neg n0 v0 rest (bool_eq_false hp)] at h
      have hrest : firstTupleOffender rest = some u := h
      rw [applyUserSettings]
      by_cases hu : pyIsupper n0 = true
      · rw [if_pos hu]
        have hnotbad : ¬(n0 ∈ tuple_settings ∧ isListOrTuple v0 = false) := by
          intro hb
          exact hp (by simp [hu, hb.1, hb.2])
        rw [if_neg hnotbad]
        exact ih (setA a n0 v0) (e ++ [n0]) u hrest
      · rw [if_neg hu]
        exact ih a e u hrest

theorem firstTupleOffender_isSome (mod : AttrMap) (t : String) (v : PyVal)
    (ht : t ∈ tuple_settings) (hl : lookupA mod t = some v)
    (hbad : isListOrTuple v = false) : (firstTupleOffender mod).isSome = true := by
  have hupper : pyIsupper t = true := by
    fin_cases ht <;> decide
  induction mod with
  | nil => cases hl
  | cons p rest ih =>
    obtain ⟨k, w⟩ := p
    by_cases hp : (pyIsupper k && decide (k ∈ tuple_settings) && !isListOrTuple w) = true
    · rw [firstTupleOffender_cons_pos k w rest hp]; rfl
    · rw [firstTupleOffender_cons_neg k w rest (bool_eq_false hp)]
      by_cases hk : k = t
      · subst hk
        rw [lookupA, if_pos rfl] at hl
        injection hl with hl
        subst hl
        exact absurd (by simp [hupper, ht, hbad]) hp
      · rw [lookupA, if_neg hk] at hl
        exact ih hl

theorem Settings.init_ok_inv (g : AttrMap) (M : String) (mod : AttrMap) (env : SysEnv)
    (s : SettingsObj) (h : Settings.init g M mod env = Except.ok s) :
    applyUserSettings (setA (copyGlobalSettings g) "SETTINGS_MODULE" (PyVal.str M)) [] mod =
      Except.ok (s.attrs, s.explicit) := by
  simp only [Settings.init] at h
  cases happ : applyUserSettings
      (setA (copyGlobalSettings g) "SETTINGS_MODULE" (PyVal.str M)) [] mod with
  | error e => rw [happ] at h; cases h
  | ok p =>
    obtain ⟨a2, expl⟩ := p
    rw [happ] at h
    dsimp only at h
    cases hu : lookupA a2 "USE_TZ" with
    | none => rw [hu] at h; cases h
    | some w =>
      rw [hu] at h
      dsimp only at h
      cases htz : tzCheck env a2 with
      | error e => rw [htz] at h; cases h
      | ok u =>
        rw [htz] at h
        dsimp only at h
        injection h with h
        subst h
        rfl

/-- C1: for a module `M` named by `DJANGO_SETTINGS_MODULE`, a successfully
constructed `Settings(M)` holds every upper-case attribute of the
default-settings module with its default value, overlaid by every upper-case
attribute of the user module (the user value wins on overlap);
`is_overridden` is true exactly for the upper-case names the user module
defines; non-upper-case names are copied from neither module.  The
default-settings module is quantified over, with the hypothesis (true of the
real `global_settings`) that it does not itself define `SETTINGS_MODULE`. -/
theorem claim_C1 (g mod : AttrMap) (M : String) (env : SysEnv) (s : SettingsObj)
    (hg : (g.map Prod.fst).Nodup) (hm : (mod.map Prod.fst).Nodup)
    (hgM : lookupA g "SETTINGS_MODULE" = Option.none)
    (h : Settings.init g M mod env = Except.ok s) :
    (∀ n v, pyIsupper n = true → lookupA mod n = some v → lookupA s.attrs n = some v)
    ∧ (∀ n v, pyIsupper n = true → lookupA mod n = Option.none → lookupA g n = some v →
        lookupA s.attrs n = some v)
    ∧ (∀ n, s.is_overridden n = true ↔ (pyIsupper n = true ∧ n ∈ mod.map Prod.fst))
    ∧ (∀ n, pyIsupper n = false → lookupA s.attrs n = Option.none) := by
  have happ := Settings.init_ok_inv g M mod env s h
  obtain ⟨hlook, hexp⟩ := applyUserSettings_ok_spec mod
    (setA (copyGlobalSettings g) "SETTINGS_MODULE" (PyVal.str M)) [] s.attrs s.explicit hm happ
  have hSMupper : pyIsupper "SETTINGS_MODULE" = true := by decide
  refine ⟨?_, ?_, ?_, ?_⟩
  · intro n v hup hmod
    rw [hlook n, hmod]
    simp [hup]
  · intro n v hup hmod hgv
    have hnSM : n ≠ "SETTINGS_MODULE" := by
      intro he
      rw [he, hgM] at hgv
      cases hgv
    rw [hlook n, hmod, lookupA_setA_ne _ _ hnSM, copyGlobalSettings_lookup g n hg]
    simp [hup, hgv]
  · intro n
    rw [SettingsObj.is_overridden, hexp]
    simp only [List.nil_append, decide_eq_true_eq]
    constructor
    · intro hmem
      obtain ⟨p, hp, rfl⟩ := List.mem_map.mp hmem
      rw [List.mem_filter] at hp
      exact ⟨by simpa using hp.2, List.mem_map.mpr ⟨p, hp.1, rfl⟩⟩
    · rintro ⟨hup, hmem⟩
      obtain ⟨p, hp, rfl⟩ := List.mem_map.mp hmem
      exact List.mem_map.mpr ⟨p, List.mem_filter.mpr ⟨hp, by simpa using hup⟩, rfl⟩
  · intro n hup
    have hnSM : n ≠ "SETTINGS_MODULE" := by
      intro he
      rw [he, hSMupper] at hup
      cases hup
    rw [hlook n]
    cases hmn : lookupA mod n <;>
      simp [hup, lookupA_setA_ne _ _ hnSM, copyGlobalSettings_lookup g n hg]

theorem claim_C1_witness :
    lookupA (SettingsObj.mk
        [("USE_TZ", PyVal.bool true), ("SETTINGS_MODULE", PyVal.str "myapp.settings"),
         ("DEBUG", PyVal.bool true)] ["DEBUG"]).attrs "DEBUG" = some (PyVal.bool true)
    ∧ (SettingsObj.mk
        [("USE_TZ", PyVal.bool true), ("SETTINGS_MODULE", PyVal.str "myapp.settings"),
         ("DEBUG", PyVal.bool true)] ["DEBUG"]).is_overridden "DEBUG" = true := by
  have hc := claim_C1 [("USE_TZ", PyVal.bool true), ("DEBUG", PyVal.bool false)]
      [("DEBUG", PyVal.bool true)] "myapp.settings" (SysEnv.mk false false (fun _ => false))
      (SettingsObj.mk
        [("USE_TZ", PyVal.bool true), ("SETTINGS_MODULE", PyVal.str "myapp.settings"),
         ("DEBUG", PyVal.bool true)] ["DEBUG"])
      (by decide) (by decide) rfl rfl
  exact ⟨hc.1 "DEBUG" (PyVal.bool true) (by decide) rfl,
    (hc.2.2.1 "DEBUG").mpr ⟨by decide, by decide⟩⟩

/-- C9: if the user module defines one of `ALLOWED_HOSTS`, `INSTALLED_APPS`,
`TEMPLATE_DIRS`, `LOCALE_PATHS` with a value that is neither a list nor a
tuple, `Settings.__init__` raises `ImproperlyConfigured` saying the (first
such, in `dir` order) setting must be a list or a tuple; list or tuple
values are accepted unchanged. -/
theorem claim_C9 (g mod : AttrMap) (M : String) (env : SysEnv)
    (hm : (mod.map Prod.fst).Nodup) :
    (∀ t v, t ∈ tuple_settings → lookupA mod t = some v → isListOrTuple v = false →
        (firstTupleOffender mod).isSome = true)
    ∧ (∀ u, firstTupleOffender mod = some u →
        Settings.init g M mod env = Except.error (PyExc.improperlyConfigured
          ("The " ++ u ++ " setting must be a list or a tuple.")))
    ∧ (∀ t v s, t ∈ tuple_settings → lookupA mod t = some v → isListOrTuple v = true →
        Settings.init g M mod env = Except.ok s → lookupA s.attrs t = some v) := by
  refine ⟨?_, ?_, ?_⟩
  · intro t v ht hl hbad
    exact firstTupleOffender_isSome mod t v ht hl hbad
  · intro u hoff
    simp only [Settings.init]
    rw [applyUserSettings_offender mod _ [] u hoff]
  · intro t v s ht hl hgood hinit
    have happ := Settings.init_ok_inv g M mod env s hinit
    obtain ⟨hlook, _⟩ := applyUserSettings_ok_spec mod
      (setA (copyGlobalSettings g) "SETTINGS_MODULE" (PyVal.str M)) [] s.attrs s.explicit hm happ
    have hup : pyIsupper t = true := by fin_cases ht <;> decide
    rw [hlook t, hl]
    simp [hup]

theorem claim_C9_witness :
    Settings.init [("USE_TZ", PyVal.bool true)] "m" [("ALLOWED_HOSTS", PyVal.int 3)]
        (SysEnv.mk false false (fun _ => false)) =
      Except.error (PyExc.improperlyConfigured
        "The ALLOWED_HOSTS setting must be a list or a tuple.")
    ∧ lookupA (SettingsObj.mk
        [("USE_TZ", PyVal.bool true), ("SETTINGS_MODULE", PyVal.str "m"),
         ("ALLOWED_HOSTS", PyVal.list [])] ["ALLOWED_HOSTS"]).attrs "ALLOWED_HOSTS" =
      some (PyVal.list []) := by
  have h2 := (claim_C9 [("USE_TZ", PyVal.bool true)] [("ALLOWED_HOSTS", PyVal.int 3)] "m"
      (SysEnv.mk false false (fun _ => false)) (by decide)).2.1 "ALLOWED_HOSTS" rfl
  have h3 := (claim_C9 [("USE_TZ", PyVal.bool true)] [("ALLOWED_HOSTS", PyVal.list [])] "m"
      (SysEnv.mk false false (fun _ => false)) (by decide)).2.2 "ALLOWED_HOSTS" (PyVal.list [])
      (SettingsObj.mk
        [("USE_TZ", PyVal.bool true), ("SETTINGS_MODULE", PyVal.str "m"),
         ("ALLOWED_HOSTS", PyVal.list [])] ["ALLOWED_HOSTS"])
      (by decide) rfl rfl rfl
  exact ⟨h2, h3⟩

/-! ## `django.utils.connection.BaseConnectionHandler`
(`src/django/utils/connection.py`)

`self._connections` is an `asgiref` `Local`; the claims are about a single
thread, so the attribute dictionary that `Local` presents to the current
thread is modelled as one association list threaded through the operations.
`create_connection` is the subclass-supplied factory. -/

/-- A connection handler: its resolved `settings` mapping (a dict whose keys
are the aliases) and the subclass-supplied `create_connection` factory.  The
third component of `getItem`'s result records whether the factory was
called. -/
structure Handler (α : Type) where
  settings : List (String × PyVal)
  create : String → α

/-- The message of the typed does-not-exist error:
`f"The connection '{alias}' doesn't exist."` -/
def connMsg (a : String) : String :=
  "The connection " ++ sglQuote ++ a ++ sglQuote ++ " doesn" ++ sglQuote ++ "t exist."

/-- `BaseConnectionHandler.__getitem__(alias)` for the current thread:
return the cached connection if the thread-local store has one; otherwise
check the alias against the settings keys, raising the typed error when it is
unknown, else create the connection, cache it and return it.  The `Bool`
result records whether `create_connection` was called. -/
def Handler.getItem {α : Type} (h : Handler α) (conns : List (String × α)) (a : String) :
    Except PyExc (α × List (String × α) × Bool) :=
  match lookupA conns a with
  | some c => Except.ok (c, conns, false)
  | Option.none =>
    if a ∈ h.settings.map Prod.fst then
      Except.ok (h.create a, setA conns a (h.create a), true)
    else
      Except.error (PyExc.connectionDoesNotExist (connMsg a))

/-- `BaseConnectionHandler.__iter__`: iterating the handler iterates the
`settings` dict, i.e. yields its keys in order. -/
def Handler.iterKeys {α : Type} (h : Handler α) : List String :=
  h.settings.map Prod.fst

/-- The list comprehension of `all()`: `self[alias]` for each alias of an
alias list, threading the thread-local store. -/
def Handler.allAux {α : Type} (h : Handler α) :
    List (String × α) → List String → Except PyExc (List α × List (String × α))
  | conns, [] => Except.ok ([], conns)
  | conns, a :: rest =>
    match h.getItem conns a with
    | Except.error e => Except.error e
    | Except.ok (c, conns1, _) =>
      match h.allAux conns1 rest with
      | Except.error e => Except.error e
      | Except.ok (cs, conns2) => Except.ok (c :: cs, conns2)

/-- `BaseConnectionHandler.all()`: `[self[alias] for alias in self]`. -/
def Handler.all {α : Type} (h : Handler α) (conns : List (String × α)) :
    Except PyExc (List α × List (String × α)) :=
  h.allAux conns h.iterKeys

/-- The connection `self[a]` resolves to from the store `conns`: the cached
one if present, else a freshly created one. -/
def resolveConn {α : Type} (h : Handler α) (conns : List (String × α)) (a : String) : α :=
  (lookupA conns a).getD (h.create a)

/-- C2: for an alias in the settings mapping, the first `__getitem__` in a
thread calls `create_connection` and caches the result in the thread-local
store; any later `__getitem__` in that thread (while the entry is cached)
returns the same object without calling the factory again. -/
theorem claim_C2 {α : Type} (h : Handler α) (conns : List (String × α)) (a : String)
    (hnc : lookupA conns a = Option.none) (hk : a ∈ h.settings.map Prod.fst) :
    h.getItem conns a = Except.ok (h.create a, setA conns a (h.create a), true)
    ∧ lookupA (setA conns a (h.create a)) a = some (h.create a)
    ∧ (∀ conns2 : List (String × α), lookupA conns2 a = some (h.create a) →
        h.getItem conns2 a = Except.ok (h.create a, conns2, false)) := by
  refine ⟨?_, lookupA_setA_self conns a (h.create a), ?_⟩
  · rw [Handler.getItem, hnc]
    simp [hk]
  · intro conns2 hc
    rw [Handler.getItem, hc]

theorem claim_C2_witness :
    Handler.getItem (Handler.mk [("default", PyVal.none)] (fun _ => 7))
        ([] : List (String × Nat)) "default" =
      Except.ok (7, [("default", 7)], true) :=
  (claim_C2 (Handler.mk [("default", PyVal.none)] (fun _ => 7)) [] "default"
    rfl (by decide)).1

/-- C3: for an alias that is not a key of the settings mapping (and is not
already cached in this thread), `__getitem__` raises the handler's
`ConnectionDoesNotExist` with a message naming the alias, and no connection
is created or cached (the operation produces no new store). -/
theorem claim_C3 {α : Type} (h : Handler α) (conns : List (String × α)) (a : String)
    (hnc : lookupA conns a = Option.none) (hk : a ∉ h.settings.map Prod.fst) :
    h.getItem conns a = Except.error (PyExc.connectionDoesNotExist (connMsg a))
    ∧ connMsg a =
      "The connection " ++ sglQuote ++ a ++ sglQuote ++ " doesn" ++ sglQuote ++ "t exist." := by
  refine ⟨?_, rfl⟩
  rw [Handler.getItem, hnc]
  simp [hk]

theorem claim_C3_witness :
    Handler.getItem (Handler.mk [("default", PyVal.none)] (fun _ => 7))
        ([] : List (String × Nat)) "other" =
      Except.error (PyExc.connectionDoesNotExist (connMsg "other")) :=
  (claim_C3 (Handler.mk [("default", PyVal.none)] (fun _ => 7)) [] "other"
    rfl (by decide)).1

theorem Handler.allAux_spec {α : Type} (h : Handler α) (conns0 : List (String × α)) :
    ∀ (al : List String) (c : List (String × α)),
      (∀ a, a ∈ al → a ∈ h.settings.map Prod.fst) →
      (∀ x v, lookupA conns0 x = some v → lookupA c x = some v) →
      (∀ x v, lookupA c x = some v → v = resolveConn h conns0 x) →
      ∃ c2, h.allAux c al = Except.ok (al.map (resolveConn h conns0), c2)
        ∧ (∀ x v, lookupA c x = some v → lookupA c2 x = some v)
        ∧ (∀ x v, lookupA c2 x = some v → v = resolveConn h conns0 x)
        ∧ (∀ a, a ∈ al → (lookupA c2 a).isSome = true) := by
  intro al
  induction al with
  | nil =>
    intro c _ _ hres
    exact ⟨c, rfl, fun x v hv => hv, hres, fun a ha => absurd ha (List.not_mem_nil a)⟩
  | cons a rest ih =>
    intro c hal hmono0 hres
    cases hc : lookupA c a with
    | some v =>
      have hv : v = resolveConn h conns0 a := hres a v hc
      obtain ⟨c2, hrun, hmono, hres2, hcov⟩ :=
        ih c (fun x hx => hal x (List.mem_cons_of_mem a hx)) hmono0 hres
      refine ⟨c2, ?_, hmono, hres2, ?_⟩
      · rw [Handler.allAux, Handler.getItem, hc]
        dsimp only
        rw [hrun]
        dsimp only
        rw [List.map_cons, hv]
      · intro x hx
        rcases List.mem_cons.mp hx with hxa | hxr
        · subst hxa
          rw [(hmono x v hc : lookupA c2 x = some v)]
          rfl
        · exact hcov x hxr
    | none =>
      have h0 : lookupA conns0 a = Option.none := by
        cases h0x : lookupA conns0 a with
        | none => rfl
        | some w => rw [hmono0 a w h0x] at hc; cases hc
      have hva : resolveConn h conns0 a = h.create a := by
        rw [resolveConn, h0]; rfl
      have hmono1 : ∀ x v, lookupA c x = some v →
          lookupA (setA c a (h.create a)) x = some v := by
        intro x v hv
        have hxa : x ≠ a := by
          intro he
          rw [he, hc] at hv
          cases hv
        rw [lookupA_setA_ne c (h.create a) hxa]
        exact hv
      have hres1 : ∀ x v, lookupA (setA c a (h.create a)) x = some v →
          v = resolveConn h conns0 x := by
        intro x v hv
        by_cases hxa : x = a
        · subst hxa
          rw [lookupA_setA_self c x (h.create x)] at hv
          injection hv with hv
          exact (hva.trans hv).symm
        · rw [lookupA_setA_ne c (h.create a) hxa] at hv
          exact hres x v hv
      obtain ⟨c2, hrun, hmono, hres2, hcov⟩ :=
        ih (setA c a (h.create a)) (fun x hx => hal x (List.mem_cons_of_mem a hx))
          (fun x v hv => hmono1 x v (hmono0 x v hv)) hres1
      refine ⟨c2, ?_, fun x v hv => hmono x v (hmono1 x v hv), hres2, ?_⟩
      · rw [Handler.allAux, Handler.getItem, hc]
        dsimp only
        rw [if_pos (hal a (List.mem_cons_self a rest))]
        dsimp only
        rw [hrun]
        dsimp only
        rw [List.map_cons, hva]
      · intro x hx
        rcases List.mem_cons.mp hx with hxa | hxr
        · subst hxa
          rw [hmono x (h.create x) (lookupA_setA_self c x (h.create x))]
          rfl
        · exact hcov x hxr

/-- C7: iterating a handler yields exactly the keys of its settings mapping,
and `all()` returns, for every alias in iteration order, `self[alias]` —
eagerly creating and caching, for the current thread, every configured
connection not yet in the store. -/
theorem claim_C7 {α : Type} (h : Handler α) (conns : List (String × α)) :
    h.iterKeys = h.settings.map Prod.fst
    ∧ ∃ conns2, h.all conns = Except.ok (h.iterKeys.map (resolveConn h conns), conns2)
        ∧ ∀ a, a ∈ h.iterKeys → lookupA conns2 a = some (resolveConn h conns a) := by
  refine ⟨rfl, ?_⟩
  obtain ⟨c2, hrun, _, hres2, hcov⟩ :=
    Handler.allAux_spec h conns h.iterKeys conns (fun a ha => ha)
      (fun x v hv => hv) (fun x v hv => by rw [resolveConn, hv]; rfl)
  refine ⟨c2, hrun, fun a ha => ?_⟩
  obtain ⟨v, hv⟩ := Option.isSome_iff_exists.mp (hcov a ha)
  rw [hv, hres2 a v hv]

/-! ## `django.conf.LazySettings` and `UserSettingsHolder`
(`src/django/conf/__init__.py`) -/

/-- The state of a `UserSettingsHolder`: the `default_settings` fallback
module, the settings stored in the instance `__dict__` by `__setattr__`, and
the `_deleted` set. -/
structure UserSettingsHolder where
  default_settings : AttrMap
  localAttrs : AttrMap
  deleted : List String

/-- Attribute access on a `UserSettingsHolder`: the instance `__dict__`
first, then the class attribute `SETTINGS_MODULE = None`, and only then
`UserSettingsHolder.__getattr__`, which raises `AttributeError` for
non-upper-case or deleted names and otherwise reads the `default_settings`
module (where a missing attribute is again an `AttributeError`). -/
def UserSettingsHolder.getattr (u : UserSettingsHolder) (name : String) :
    Except PyExc PyVal :=
  match lookupA u.localAttrs name with
  | some v => Except.ok v
  | Option.none =>
    if name = "SETTINGS_MODULE" then Except.ok PyVal.none
    else if pyIsupper name = false ∨ name ∈ u.deleted then
      Except.error PyExc.attributeError
    else
      match lookupA u.default_settings name with
      | some v => Except.ok v
      | Option.none => Except.error PyExc.attributeError

/-- `UserSettingsHolder.__setattr__`: discard the name from `_deleted` and
store the value in the instance `__dict__` (the deprecation warnings have no
state effect). -/
def UserSettingsHolder.setattr (u : UserSettingsHolder) (name : String) (v : PyVal) :
    UserSettingsHolder :=
  { u with deleted := u.deleted.filter (fun d => decide (d ≠ name)),
           localAttrs := setA u.localAttrs name v }

/-- What `LazySettings._wrapped` holds once it is not `empty`: either a
`Settings` object or a `UserSettingsHolder`. -/
inductive Holder where
  | settingsH : SettingsObj → Holder
  | userH : UserSettingsHolder → Holder

/-- `getattr(self._wrapped, name)`: plain attribute lookup on a `Settings`
object (its `__dict__`), or the `UserSettingsHolder` lookup. -/
def Holder.getattr : Holder → String → Except PyExc PyVal
  | Holder.settingsH s, n =>
    match lookupA s.attrs n with
    | some v => Except.ok v
    | Option.none => Except.error PyExc.attributeError
  | Holder.userH u, n => u.getattr n

/-- `setattr(self._wrapped, name, value)`: plain `__dict__` update on a
`Settings` object, or `UserSettingsHolder.__setattr__`. -/
def Holder.setattr : Holder → String → PyVal → Holder
  | Holder.settingsH s, n, v => Holder.settingsH { s with attrs := setA s.attrs n v }
  | Holder.userH u, n, v => Holder.userH (u.setattr n v)

/-- The state of a `LazySettings` proxy: `_wrapped` (`Option.none` while it
is `empty`) and the attribute cache kept in the proxy's own `__dict__`. -/
structure LazySettingsState where
  wrapped : Option Holder
  cache : AttrMap

/-- `LazySettings._add_script_prefix(value)`: keep absolute URLs and paths,
otherwise prepend `get_script_prefix()` (passed in as `pre`, since
`django.urls` is outside the excerpt). -/
def addScriptPre (pre : String) (v : String) : String :=
  if v.startsWith "http://" || v.startsWith "https://" || v.startsWith "/" then v
  else pre ++ v

/-- `v is None`. -/
def isPyNone : PyVal → Bool
  | PyVal.none => true
  | _ => false

/-- The beginning of `LazySettings.__getattr__`: the wrapped holder, after
running `_setup(name)` when `_wrapped` is still `empty`.  The outcome of
`_setup` depends on `os.environ` and `importlib`, so it is passed in as
`setupF`; on success `_setup` assigns `self._wrapped`, which goes through
`__setattr__` and clears the attribute cache. -/
def lazyHolder (setupF : String → Except PyExc Holder) (st : LazySettingsState)
    (name : String) : Except PyExc (Holder × LazySettingsState) :=
  match st.wrapped with
  | some h => Except.ok (h, st)
  | Option.none =>
    match setupF name with
    | Except.error e => Except.error e
    | Except.ok h => Except.ok (h, LazySettingsState.mk (some h) [])

/-- The tail of `LazySettings.__getattr__` once `val` has been read from the
wrapped holder: `MEDIA_URL`/`STATIC_URL` that are not `None` get the script
prefix (a non-string there has no `.startswith`, an `AttributeError`), an
empty `SECRET_KEY` is `ImproperlyConfigured`, and the resulting value is
cached in `self.__dict__[name]`. -/
def finishGetattr (pre : String) (name : String) (v : PyVal)
    (st1 : LazySettingsState) : Except PyExc (PyVal × LazySettingsState) :=
  if (name = "MEDIA_URL" ∨ name = "STATIC_URL") ∧ isPyNone v = false then
    match v with
    | PyVal.str s =>
      Except.ok (PyVal.str (addScriptPre pre s),
        { st1 with cache := setA st1.cache name (PyVal.str (addScriptPre pre s)) })
    | _ => Except.error PyExc.attributeError
  else if name = "SECRET_KEY" ∧ pyTruthy v = false then
    Except.error (PyExc.improperlyConfigured
      "The SECRET_KEY setting must not be empty.")
  else
    Except.ok (v, { st1 with cache := setA st1.cache name v })

/-- `LazySettings.__getattr__(name)` together with Python's instance-dict
lookup that precedes it: a cached name is returned as is; otherwise the
wrapped holder is resolved (running `_setup` if needed), the value is read
from it, post-processed and cached. -/
def lazyGetattr (pre : String) (setupF : String → Except PyExc Holder)
    (st : LazySettingsState) (name : String) :
    Except PyExc (PyVal × LazySettingsState) :=
  match lookupA st.cache name with
  | some v => Except.ok (v, st)
  | Option.none =>
    match lazyHolder setupF st name with
    | Except.error e => Except.error e
    | Except.ok (h, st1) =>
      match h.getattr name with
      | Except.error e => Except.error e
      | Except.ok v => finishGetattr pre name v st1

/-- `LazySettings.__setattr__('_wrapped', h)`: `self.__dict__.clear()` (the
whole attribute cache is dropped) and the new holder is stored. -/
def setWrappedL (_st : LazySettingsState) (h : Holder) : LazySettingsState :=
  { wrapped := some h, cache := [] }

/-- `LazySettings.__setattr__(name, v)` for `name` other than `_wrapped`:
`self.__dict__.pop(name, None)` evicts the single cached value.  Modelled
from the spec for the `super().__setattr__` call: `LazyObject.__setattr__`
(in `django.utils.functional`, which is not part of the excerpt) forwards the
write to the wrapped object, per the method's docstring ("Set the value of
setting ... clear single values when set"). -/
def lazySetattrName (st : LazySettingsState) (name : String) (v : PyVal) :
    LazySettingsState :=
  { wrapped := st.wrapped.map (fun h => h.setattr name v),
    cache := removeKey st.cache name }

/-- The loop of `LazySettings.configure`: each keyword option must be
upper-case (else `TypeError`) and is set on the fresh holder. -/
def applyOptions : UserSettingsHolder → List (String × PyVal) →
    Except PyExc UserSettingsHolder
  | u, [] => Except.ok u
  | u, (n, v) :: rest =>
    if pyIsupper n then
      applyOptions (u.setattr n v) rest
    else
      Except.error (PyExc.typeError
        ("Setting " ++ sglQuote ++ n ++ sglQuote ++ " must be uppercase."))

/-- `LazySettings.configure(default_settings, **options)`: a `RuntimeError`
when `_wrapped` is already set; otherwise a fresh `UserSettingsHolder` over
the defaults module receives every option, and is installed as `_wrapped`
(through `__setattr__`, clearing the cache). -/
def LazySettings.configure (st : LazySettingsState) (default_settings : AttrMap)
    (options : List (String × PyVal)) : Except PyExc LazySettingsState :=
  match st.wrapped with
  | some _ => Except.error (PyExc.runtimeError "Settings already configured.")
  | Option.none =>
    match applyOptions (UserSettingsHolder.mk default_settings [] []) options with
    | Except.error e => Except.error e
    | Except.ok holder => Except.ok (setWrappedL st (Holder.userH holder))

theorem applyOptions_spec :
    ∀ (options : List (String × PyVal)) (u0 u : UserSettingsHolder),
      (options.map Prod.fst).Nodup →
      applyOptions u0 options = Except.ok u →
      u.default_settings = u0.default_settings
      ∧ (u0.deleted = [] → u.deleted = [])
      ∧ (∀ n, lookupA u.localAttrs n =
          match lookupA options n with
          | some v => some v
          | Option.none => lookupA u0.localAttrs n) := by
  intro options
  induction options with
  | nil =>
    intro u0 u _ h
    rw [applyOptions] at h
    injection h with h
    subst h
    exact ⟨rfl, fun hd => hd, fun n => rfl⟩
  | cons p rest ih =>
    obtain ⟨n0, v0⟩ := p
    intro u0 u hnd h
    simp only [List.map_cons, List.nodup_cons] at hnd
    rw [applyOptions] at h
    by_cases hu : pyIsupper n0 = true
    · rw [if_pos hu] at h
      obtain ⟨hds, hdel, hlook⟩ := ih (u0.setattr n0 v0) u hnd.2 h
      refine ⟨hds, ?_, ?_⟩
      · intro hd0
        apply hdel
        rw [UserSettingsHolder.setattr, hd0]
        rfl
      · intro n
        rw [hlook n]
        by_cases hn : n0 = n
        · subst hn
          have hr : lookupA rest n0 = Option.none :=
            lookupA_eq_none_of_not_mem hnd.1
          rw [hr, lookupA, if_pos rfl]
          exact lookupA_setA_self u0.localAttrs n0 v0
        · rw [lookupA, if_neg hn]
          cases hrn : lookupA rest n with
          | some w => rfl
          | none =>
            exact lookupA_setA_ne u0.localAttrs v0 (fun he : n = n0 => hn he.symm)
    · rw [if_neg hu] at h
      cases h

/-- C4 (as amended): `configure` on an unconfigured `LazySettings` installs a
`UserSettingsHolder` in which every upper-case option resolves to the passed
value, and every other upper-case name except `SETTINGS_MODULE` (which the
holder resolves to `None` through its class attribute) falls back to the
defaults module; once `_wrapped` is set — by `configure` or by the setup a
read triggers — any further `configure` raises `RuntimeError` and changes
nothing. -/
theorem claim_C4 (st : LazySettingsState) (ds : AttrMap)
    (options : List (String × PyVal)) :
    (∀ st2, st.wrapped = Option.none → (options.map Prod.fst).Nodup →
      LazySettings.configure st ds options = Except.ok st2 →
      ∃ u, st2 = LazySettingsState.mk (some (Holder.userH u)) []
        ∧ (∀ n v, lookupA options n = some v → u.getattr n = Except.ok v)
        ∧ (∀ n, pyIsupper n = true → lookupA options n = Option.none →
            n ≠ "SETTINGS_MODULE" →
            u.getattr n = (match lookupA ds n with
                           | some v => Except.ok v
                           | Option.none => Except.error PyExc.attributeError)))
    ∧ (st.wrapped ≠ Option.none →
        LazySettings.configure st ds options =
          Except.error (PyExc.runtimeError "Settings already configured.")) := by
  constructor
  · intro st2 hw hnd hcfg
    rw [LazySettings.configure, hw] at hcfg
    cases happ : applyOptions (UserSettingsHolder.mk ds [] []) options with
    | error e => rw [happ] at hcfg; cases hcfg
    | ok u =>
      rw [happ] at hcfg
      injection hcfg with hcfg
      obtain ⟨hds, hdel, hlook⟩ :=
        applyOptions_spec options (UserSettingsHolder.mk ds [] []) u hnd happ
      refine ⟨u, hcfg.symm, ?_, ?_⟩
      · intro n v hov
        rw [UserSettingsHolder.getattr, hlook n, hov]
      · intro n hup hov hnSM
        rw [UserSettingsHolder.getattr, hlook n, hov]
        dsimp only
        rw [if_neg hnSM, if_neg (by
          rw [hup, hdel rfl]
          rintro (hx | hx)
          · cases hx
          · cases hx), hds]
        simp [lookupA]
  · intro hw
    cases hwv : st.wrapped with
    | none => exact absurd hwv hw
    | some h =>
      rw [LazySettings.configure, hwv]

theorem claim_C4_witness :
    UserSettingsHolder.getattr
        (UserSettingsHolder.mk [("DEBUG", PyVal.bool false)] (setA [] "LANGS" (PyVal.int 2)) [])
        "LANGS" = Except.ok (PyVal.int 2)
    ∧ UserSettingsHolder.getattr
        (UserSettingsHolder.mk [("DEBUG", PyVal.bool false)] (setA [] "LANGS" (PyVal.int 2)) [])
        "DEBUG" = Except.ok (PyVal.bool false)
    ∧ LazySettings.configure
        (LazySettingsState.mk (some (Holder.userH
          (UserSettingsHolder.mk [] [] []))) []) [] [] =
      Except.error (PyExc.runtimeError "Settings already configured.") := by
  have hc := claim_C4 (LazySettingsState.mk Option.none []) [("DEBUG", PyVal.bool false)]
    [("LANGS", PyVal.int 2)]
  obtain ⟨u, hu, hopt, hfall⟩ := hc.1
    (LazySettingsState.mk (some (Holder.userH
      (UserSettingsHolder.mk [("DEBUG", PyVal.bool false)]
        (setA [] "LANGS" (PyVal.int 2)) []))) [])
    rfl (by decide) rfl
  have hu2 : u = UserSettingsHolder.mk [("DEBUG", PyVal.bool false)]
      (setA [] "LANGS" (PyVal.int 2)) [] := by
    injection hu with h1 h2
    injection h1 with h1
    injection h1 with h1
    exact h1.symm
  subst hu2
  refine ⟨hopt "LANGS" (PyVal.int 2) rfl, ?_, ?_⟩
  · have := hfall "DEBUG" (by decide) rfl (by decide)
    rw [this]
    rfl
  · exact (claim_C4 (LazySettingsState.mk (some (Holder.userH
      (UserSettingsHolder.mk [] [] []))) []) [] []).2 (fun hx => by cases hx)

/-- C4, counterexample to the claim as stated: with a defaults module that
does define `SETTINGS_MODULE`, the installed holder resolves the upper-case
name `SETTINGS_MODULE` (not passed in the options) to `None` through its
class attribute instead of falling back to the defaults module. -/
theorem claim_C4_counterexample :
    LazySettings.configure (LazySettingsState.mk Option.none [])
        [("SETTINGS_MODULE", PyVal.str "real")] [] =
      Except.ok (LazySettingsState.mk
        (some (Holder.userH (UserSettingsHolder.mk
          [("SETTINGS_MODULE", PyVal.str "real")] [] []))) [])
    ∧ UserSettingsHolder.getattr
        (UserSettingsHolder.mk [("SETTINGS_MODULE", PyVal.str "real")] [] [])
        "SETTINGS_MODULE" = Except.ok PyVal.none
    ∧ pyIsupper "SETTINGS_MODULE" = true
    ∧ lookupA [("SETTINGS_MODULE", PyVal.str "real")] "SETTINGS_MODULE" =
        some (PyVal.str "real")
    ∧ PyVal.none ≠ PyVal.str "real" := by
  refine ⟨rfl, rfl, rfl, rfl, fun h => ?_⟩
  cases h

theorem finishGetattr_ok_cache (pre name : String) (v : PyVal)
    (st1 st2 : LazySettingsState) (w : PyVal)
    (h : finishGetattr pre name v st1 = Except.ok (w, st2)) :
    lookupA st2.cache name = some w := by
  rw [finishGetattr.eq_def] at h
  by_cases h1 : (name = "MEDIA_URL" ∨ name = "STATIC_URL") ∧ isPyNone v = false
  · rw [if_pos h1] at h
    cases v with
    | str s =>
      dsimp only at h
      injection h with h
      injection h with ha hb
      subst ha; subst hb
      exact lookupA_setA_self st1.cache name _
    | none => cases h
    | bool b => cases h
    | int n => cases h
    | list l => cases h
    | tuple l => cases h
  · rw [if_neg h1] at h
    by_cases h2 : name = "SECRET_KEY" ∧ pyTruthy v = false
    · rw [if_pos h2] at h; cases h
    · rw [if_neg h2] at h
      injection h with h
      injection h with ha hb
      subst ha; subst hb
      exact lookupA_setA_self st1.cache name v

theorem lazyGetattr_ok_cache (pre : String) (setupF : String → Except PyExc Holder)
    (st : LazySettingsState) (name : String) (v : PyVal) (st2 : LazySettingsState)
    (h : lazyGetattr pre setupF st name = Except.ok (v, st2)) :
    lookupA st2.cache name = some v := by
  rw [lazyGetattr] at h
  cases hc : lookupA st.cache name with
  | some w =>
    rw [hc] at h
    injection h with h
    injection h with ha hb
    subst ha; subst hb
    exact hc
  | none =>
    rw [hc] at h
    cases hh : lazyHolder setupF st name with
    | error e => rw [hh] at h; cases h
    | ok p =>
      obtain ⟨hold, st1⟩ := p
      rw [hh] at h
      dsimp only at h
      cases hg : hold.getattr name with
      | error e => rw [hg] at h; cases h
      | ok w =>
        rw [hg] at h
        dsimp only at h
        exact finishGetattr_ok_cache pre name w st1 st2 v h

/-- C5 (as amended): a successful read caches the value, and reading the same
name again returns the cached value and leaves the state unchanged; replacing
the wrapped holder clears the entire attribute cache; setting a single name
through `__setattr__` evicts exactly that name from the cache (other cached
names survive) while writing the new value through to the wrapped holder —
so, contrary to the claim as stated, a cached-and-read value is not immutable
under single-attribute assignment. -/
theorem claim_C5 (pre : String) (setupF : String → Except PyExc Holder)
    (st st2 : LazySettingsState) (name : String) (v : PyVal) :
    (lazyGetattr pre setupF st name = Except.ok (v, st2) →
      lazyGetattr pre setupF st2 name = Except.ok (v, st2))
    ∧ (∀ h, (setWrappedL st h).cache = [])
    ∧ (∀ m w, m ≠ name →
        lookupA (lazySetattrName st m w).cache name = lookupA st.cache name)
    ∧ (∀ w, lookupA (lazySetattrName st name w).cache name = Option.none) := by
  refine ⟨?_, fun h => rfl, ?_, ?_⟩
  · intro h
    have hc := lazyGetattr_ok_cache pre setupF st name v st2 h
    rw [lazyGetattr, hc]
  · intro m w hm
    rw [lazySetattrName]
    exact lookupA_removeKey_ne st.cache (Ne.symm hm)
  · intro w
    rw [lazySetattrName]
    exact lookupA_removeKey_self st.cache name

theorem claim_C5_witness :
    lazyGetattr "" (fun _ => Except.error PyExc.attributeError)
        (LazySettingsState.mk (some (Holder.userH
          (UserSettingsHolder.mk [] [("DEBUG", PyVal.bool true)] [])))
          [("DEBUG", PyVal.bool true)]) "DEBUG" =
      Except.ok (PyVal.bool true,
        LazySettingsState.mk (some (Holder.userH
          (UserSettingsHolder.mk [] [("DEBUG", PyVal.bool true)] [])))
          [("DEBUG", PyVal.bool true)]) :=
  (claim_C5 "" (fun _ => Except.error PyExc.attributeError)
    (LazySettingsState.mk (some (Holder.userH
      (UserSettingsHolder.mk [] [("DEBUG", PyVal.bool true)] []))) [])
    (LazySettingsState.mk (some (Holder.userH
      (UserSettingsHolder.mk [] [("DEBUG", PyVal.bool true)] [])))
      [("DEBUG", PyVal.bool true)]) "DEBUG" (PyVal.bool true)).1 rfl

/-- C5, counterexample to the claim as stated: after `DEBUG` has been read
and cached, a single `__setattr__('DEBUG', False)` — which does not replace
the wrapped holder — changes the value the settings return. -/
theorem claim_C5_counterexample :
    lazyGetattr "" (fun _ => Except.error PyExc.attributeError)
        (LazySettingsState.mk (some (Holder.userH
          (UserSettingsHolder.mk [] [("DEBUG", PyVal.bool true)] []))) []) "DEBUG" =
      Except.ok (PyVal.bool true,
        LazySettingsState.mk (some (Holder.userH
          (UserSettingsHolder.mk [] [("DEBUG", PyVal.bool true)] [])))
          [("DEBUG", PyVal.bool true)])
    ∧ lazySetattrName
        (LazySettingsState.mk (some (Holder.userH
          (UserSettingsHolder.mk [] [("DEBUG", PyVal.bool true)] [])))
          [("DEBUG", PyVal.bool true)]) "DEBUG" (PyVal.bool false) =
      LazySettingsState.mk (some (Holder.userH
        (UserSettingsHolder.mk [] [("DEBUG", PyVal.bool false)] []))) []
    ∧ lazyGetattr "" (fun _ => Except.error PyExc.attributeError)
        (LazySettingsState.mk (some (Holder.userH
          (UserSettingsHolder.mk [] [("DEBUG", PyVal.bool false)] []))) []) "DEBUG" =
      Except.ok (PyVal.bool false,
        LazySettingsState.mk (some (Holder.userH
          (UserSettingsHolder.mk [] [("DEBUG", PyVal.bool false)] [])))
          [("DEBUG", PyVal.bool false)])
    ∧ PyVal.bool false ≠ PyVal.bool true := by
  refine ⟨rfl, rfl, rfl, fun h => ?_⟩
  injection h with h
  cases h

/-- C6 (as amended): once the settings module has been loaded, accessing a
name that neither the defaults module nor the user module set raises
`AttributeError` (not `ImproperlyConfigured`: the merged `Settings` object
simply lacks the attribute). -/
theorem claim_C6 (pre : String) (setupF : String → Except PyExc Holder)
    (st : LazySettingsState) (s : SettingsObj) (name : String)
    (hw : st.wrapped = some (Holder.settingsH s))
    (hc : lookupA st.cache name = Option.none)
    (hs : lookupA s.attrs name = Option.none) :
    lazyGetattr pre setupF st name = Except.error PyExc.attributeError := by
  have hh : lazyHolder setupF st name = Except.ok (Holder.settingsH s, st) := by
    rw [lazyHolder, hw]
  have hg : Holder.getattr (Holder.settingsH s) name = Except.error PyExc.attributeError := by
    simp only [Holder.getattr, hs]
  rw [lazyGetattr, hc, hh]
  dsimp only
  rw [hg]

theorem claim_C6_witness :
    lazyGetattr "" (fun _ => Except.error PyExc.attributeError)
        (LazySettingsState.mk (some (Holder.settingsH
          (SettingsObj.mk [("USE_TZ", PyVal.bool true)] []))) []) "UNSET_NAME" =
      Except.error PyExc.attributeError :=
  claim_C6 "" (fun _ => Except.error PyExc.attributeError)
    (LazySettingsState.mk (some (Holder.settingsH
      (SettingsObj.mk [("USE_TZ", PyVal.bool true)] []))) [])
    (SettingsObj.mk [("USE_TZ", PyVal.bool true)] []) "UNSET_NAME" rfl rfl rfl

/-- `isinstance(e, ImproperlyConfigured)` for the embedded exceptions. -/
def isImproperlyConfigured : PyExc → Bool
  | PyExc.improperlyConfigured _ => true
  | _ => false

/-- C6, counterexample to the claim as stated: the exception the code raises
for a name set by neither module is `AttributeError`, which is not an
`ImproperlyConfigured` error. -/
theorem claim_C6_counterexample :
    lazyGetattr "" (fun _ => Except.error PyExc.attributeError)
        (LazySettingsState.mk (some (Holder.settingsH
          (SettingsObj.mk [("USE_TZ", PyVal.bool true)] []))) []) "UNSET_NAME" =
      Except.error PyExc.attributeError
    ∧ isImproperlyConfigured PyExc.attributeError = false :=
  ⟨rfl, rfl⟩

/-- C10: a read of `SECRET_KEY` that goes through `__getattr__` raises
`ImproperlyConfigured` when the resolved value is falsy — before anything is
cached — and otherwise returns the value unmodified and caches it. -/
theorem claim_C10 (pre : String) (setupF : String → Except PyExc Holder)
    (st : LazySettingsState) (h : Holder) (v : PyVal)
    (hw : st.wrapped = some h)
    (hc : lookupA st.cache "SECRET_KEY" = Option.none)
    (hv : h.getattr "SECRET_KEY" = Except.ok v) :
    (pyTruthy v = false →
      lazyGetattr pre setupF st "SECRET_KEY" =
        Except.error (PyExc.improperlyConfigured
          "The SECRET_KEY setting must not be empty."))
    ∧ (pyTruthy v = true →
      lazyGetattr pre setupF st "SECRET_KEY" =
        Except.ok (v, LazySettingsState.mk st.wrapped
          (setA st.cache "SECRET_KEY" v))) := by
  have hh : lazyHolder setupF st "SECRET_KEY" = Except.ok (h, st) := by
    rw [lazyHolder, hw]
  have hmedia : ¬(("SECRET_KEY" = "MEDIA_URL" ∨ "SECRET_KEY" = "STATIC_URL")
      ∧ isPyNone v = false) := by
    rintro ⟨hor, -⟩
    rcases hor with hx | hx <;> exact absurd hx (by decide)
  constructor
  · intro hf
    rw [lazyGetattr, hc, hh]
    dsimp only
    rw [hv]
    dsimp only
    rw [finishGetattr.eq_def, if_neg hmedia, if_pos ⟨rfl, hf⟩]
  · intro ht
    rw [lazyGetattr, hc, hh]
    dsimp only
    rw [hv]
    dsimp only
    rw [finishGetattr.eq_def, if_neg hmedia,
      if_neg (fun hx => by rw [ht] at hx; cases hx.2)]

theorem claim_C10_witness :
    lazyGetattr "" (fun _ => Except.error PyExc.attributeError)
        (LazySettingsState.mk (some (Holder.userH
          (UserSettingsHolder.mk [] [("SECRET_KEY", PyVal.str "abc")] []))) [])
        "SECRET_KEY" =
      Except.ok (PyVal.str "abc",
        LazySettingsState.mk (some (Holder.userH
          (UserSettingsHolder.mk [] [("SECRET_KEY", PyVal.str "abc")] [])))
          [("SECRET_KEY", PyVal.str "abc")]) :=
  (claim_C10 "" (fun _ => Except.error PyExc.attributeError)
    (LazySettingsState.mk (some (Holder.userH
      (UserSettingsHolder.mk [] [("SECRET_KEY", PyVal.str "abc")] []))) [])
    (Holder.userH (UserSettingsHolder.mk [] [("SECRET_KEY", PyVal.str "abc")] []))
    (PyVal.str "abc") rfl rfl rfl).2 rfl

/-! ## `shell` management command
(`src/django/core/management/commands/shell.py`, `Command.handle`) -/

/-- `Command.shells`. -/
def shells : List String := ["ipython", "bpython", "python"]

/-- Python truthiness of an optional string (`options['command']`,
`options['interface']` are `None` or a string). -/
def optStrTruthy : Option String → Bool
  | some s => s != ""
  | Option.none => false

/-- The `for shell in available_shells` loop: run the first interpreter
whose import succeeds; when the loop ends, raise
`CommandError("Couldn't import {} interface.".format(shell))` with `shell`
the last one tried.  (The alias list is never empty: it is `[interface]` or
the three `shells`; on an empty list Python would hit an unbound `shell`, the
placeholder argument stands for that never-used initial value.) -/
def tryShells (importable : String → Bool) : String → List String → Except PyExc String
  | last, [] => Except.error (PyExc.commandError
      ("Couldn" ++ sglQuote ++ "t import " ++ last ++ " interface."))
  | _, s :: rest => if importable s then Except.ok s else tryShells importable s rest

/-- What `Command.handle` ends up doing. -/
inductive ShellOutcome where
  | execCommand : String → ShellOutcome
  | execStdin : ShellOutcome
  | interp : String → ShellOutcome

/-- `Command.handle(**options)`: a truthy `--command` is exec-ed; otherwise
piped standard input (the `sys.stdin`/`select` test, summarised as
`stdinPiped`) is exec-ed; otherwise the available interpreters are
`[options['interface']]` when that is truthy, else the three `shells`, and
the first importable one runs (`importable` stands for which imports
succeed in the environment). -/
def Command.handle (command : Option String) (stdinPiped : Bool)
    (interface : Option String) (importable : String → Bool) :
    Except PyExc ShellOutcome :=
  if optStrTruthy command then
    Except.ok (ShellOutcome.execCommand (command.getD ""))
  else if stdinPiped then
    Except.ok ShellOutcome.execStdin
  else
    match tryShells importable ""
        (if optStrTruthy interface then [interface.getD ""] else shells) with
    | Except.error e => Except.error e
    | Except.ok s => Except.ok (ShellOutcome.interp s)

/-- C8: with no `--command` and no piped stdin, the handler selects among
exactly the three interpreters: an explicit `--interface` is the only one
attempted (failure to import it is a `CommandError`); otherwise `ipython`,
`bpython`, `python` are attempted in that order and the first importable one
runs; if none imports, a `CommandError` is raised. -/
theorem claim_C8 (importable : String → Bool) (i : String) (hi : i ≠ "") :
    (Command.handle Option.none false (some i) importable =
      if importable i = true then Except.ok (ShellOutcome.interp i)
      else Except.error (PyExc.commandError
        ("Couldn" ++ sglQuote ++ "t import " ++ i ++ " interface.")))
    ∧ (Command.handle Option.none false Option.none importable =
      match shells.find? importable with
      | some s => Except.ok (ShellOutcome.interp s)
      | Option.none => Except.error (PyExc.commandError
          ("Couldn" ++ sglQuote ++ "t import " ++ "python" ++ " interface."))) := by
  constructor
  · cases himp : importable i <;>
      simp [Command.handle, optStrTruthy, tryShells, himp, hi]
  · cases h1 : importable "ipython" <;> cases h2 : importable "bpython" <;>
      cases h3 : importable "python" <;>
      simp [Command.handle, optStrTruthy, tryShells, shells, List.find?, h1, h2, h3]

theorem claim_C8_witness :
    Command.handle Option.none false (some "ipython") (fun _ => false) =
      Except.error (PyExc.commandError
        ("Couldn" ++ sglQuote ++ "t import " ++ "ipython" ++ " interface."))
    ∧ Command.handle Option.none false Option.none (fun s => s == "bpython") =
      Except.ok (ShellOutcome.interp "bpython") := by
  constructor
  · exact (claim_C8 (fun _ => false) "ipython" (by decide)).1
  · exact (claim_C8 (fun s => s == "bpython") "ipython" (by decide)).2
